import Mathlib

/-!
Shallow embedding of the bulk parcel-tracking component found in
src/components/PosTrackingSystem.tsx and its page variant src/unnamed/part_000.

The two files share the data model, the parsing, the batch loop
(processResi), the single-record refresh (trackSingleResi) and the remote
lookup (trackResi) verbatim; they differ only in the Excel export, which is
modelled twice (namespaces Components and Page below).

State mutations (setResiList / setIsTracking), remote calls, alerts and the
inter-request delay are recorded as an event trace, so that temporal claims
("at every instant", "at most one in progress", delays) can be read off the
sequence of collection states the component writes.
-/

structure TrackingHistory where
  date : String
  desc : String
  location : String
  deriving DecidableEq

structure TrackingSummary where
  awb : String
  courier : String
  service : String
  status : String
  date : String
  desc : String
  amount : String
  weight : String
  deriving DecidableEq

structure TrackingDetail where
  origin : String
  destination : String
  shipper : String
  receiver : String
  deriving DecidableEq

structure TrackingInner where
  summary : TrackingSummary
  detail : TrackingDetail
  history : List TrackingHistory
  deriving DecidableEq

structure TrackingData where
  status : Nat
  message : String
  data : TrackingInner
  deriving DecidableEq

structure ResiItem where
  resi : String
  data : Option TrackingData
  loading : Bool
  error : Option String
  lastUpdated : Option Nat
  deriving DecidableEq

/-- JS `s || d` for a string: the empty string is falsy. -/
def jsOrStr (s d : String) : String := if s = "" then d else s

/-- JS `o || d` for a nullable string: null and "" are falsy. -/
def jsOr (o : Option String) (d : String) : String :=
  match o with
  | some s => jsOrStr s d
  | none => d

/-- JS truthiness of API_KEY: undefined and the empty string are falsy. -/
def keyPresent : Option String → Bool
  | none => false
  | some s => s != ""

/-- Outcome of the fetch/response.json step of one remote call, as seen by
trackResi: the fetch (or json parse) rejects with an Error, or the response
is not ok, or a payload is parsed. -/
inductive FetchOutcome where
  | networkError (msg : String)
  | httpError (status : Nat)
  | ok (d : TrackingData)
  deriving DecidableEq

/-- trackResi: throws (Except.error) on a missing key, a non-ok response,
or an embedded status other than 200/201; returns the payload otherwise. -/
def trackResi (apiKey : Option String) (o : FetchOutcome) : Except String TrackingData :=
  if keyPresent apiKey = false then Except.error "API Key tidak ditemukan"
  else
    match o with
    | .networkError m => Except.error m
    | .httpError st => Except.error ("HTTP error! status: " ++ toString st)
    | .ok d =>
      if d.status != 200 && d.status != 201 then
        Except.error (jsOrStr d.message "Gagal mengambil data tracking")
      else Except.ok d

/-- Char-list splitter: one group per maximal delimiter-free run, with an
empty group between consecutive delimiters (as String.prototype.split with a
single-char separator). -/
def splitChars (p : Char → Bool) : List Char → List (List Char)
  | [] => [[]]
  | c :: cs =>
      if p c then [] :: splitChars p cs
      else
        match splitChars p cs with
        | [] => [[c]]
        | g :: gs => (c :: g) :: gs

/-- JS String.prototype.trim: drop leading and trailing whitespace. -/
def jsTrim (s : String) : String :=
  ⟨((s.data.dropWhile Char.isWhitespace).reverse.dropWhile Char.isWhitespace).reverse⟩

/-- JS String.prototype.startsWith('P'). -/
def startsWithP (s : String) : Bool :=
  match s.data with
  | c :: _ => c == 'P'
  | [] => false

/-- The token list processResi builds: split on newline/comma, trim each
chunk, keep the nonempty chunks starting with "P".  The source splits on the
regex [\n,]+, which merges delimiter runs; the extra empty chunks that a
charwise split produces are removed by the same nonempty filter, so the two
readings of the split agree on the final list. -/
def parseResi (raw : String) : List String :=
  (((splitChars (fun c => c == '\n' || c == ',') raw.data).map
      (fun cs => jsTrim ⟨cs⟩))).filter
    (fun r => decide (0 < r.length) && startsWithP r)

/-- A freshly created batch record. -/
def mkItem (r : String) : ResiItem :=
  { resi := r, data := none, loading := false, error := none, lastUpdated := none }

/-- setResiList(prev.map(item => item.resi === resi ? {...item, loading: true, error: null} : item)) -/
def markItem (r : String) (a : ResiItem) : ResiItem :=
  if a.resi = r then { a with loading := true, error := none } else a

/-- The success updater applied to one element. -/
def storeOkItem (r : String) (d : TrackingData) (t : Nat) (a : ResiItem) : ResiItem :=
  if a.resi = r then
    { a with data := some d, loading := false, error := none, lastUpdated := some t }
  else a

/-- The failure updater applied to one element. -/
def storeErrItem (r : String) (m : String) (t : Nat) (a : ResiItem) : ResiItem :=
  if a.resi = r then
    { a with data := none, loading := false, error := some m, lastUpdated := some t }
  else a

def markLoading (r : String) (l : List ResiItem) : List ResiItem := l.map (markItem r)

def storeSuccess (r : String) (d : TrackingData) (t : Nat) (l : List ResiItem) : List ResiItem :=
  l.map (storeOkItem r d t)

def storeError (r : String) (m : String) (t : Nat) (l : List ResiItem) : List ResiItem :=
  l.map (storeErrItem r m t)

/-- One iteration of the batch loop body after the loading mark: the awaited
call resolves and exactly one of the two stores runs.  The catch branch uses
the thrown Error's message, which is the Except.error payload. -/
def processStep (apiKey : Option String) (o : FetchOutcome) (t : Nat) (r : String)
    (l : List ResiItem) : List ResiItem :=
  match trackResi apiKey o with
  | .ok d => storeSuccess r d t (markLoading r l)
  | .error m => storeError r m t (markLoading r l)

/-- The same iteration seen elementwise. -/
def stepItem (apiKey : Option String) (o : FetchOutcome) (t : Nat) (r : String)
    (a : ResiItem) : ResiItem :=
  match trackResi apiKey o with
  | .ok d => storeOkItem r d t (markItem r a)
  | .error m => storeErrItem r m t (markItem r a)

/-- The final collection after the batch loop has run over `rs` starting at
index `i` (outF gives the fetch outcome of the i-th call, tf its timestamp). -/
def processLoop (apiKey : Option String) (outF : Nat → FetchOutcome) (tf : Nat → Nat) :
    List String → Nat → List ResiItem → List ResiItem
  | [], _, l => l
  | r :: rs, i, l =>
      processLoop apiKey outF tf rs (i + 1) (processStep apiKey (outF i) (tf i) r l)

/-- Observable events of the component: alert, a whole-collection write, a
write of the isTracking flag, one remote call, one setTimeout pause. -/
inductive Ev where
  | alert (msg : String)
  | setList (l : List ResiItem)
  | setTracking (b : Bool)
  | remoteCall (resi : String)
  | sleep (ms : Nat)
  deriving DecidableEq

/-- Event trace of the batch loop body: for each tracking number, in order,
mark loading, call, store, and pause 1000 ms unless it is the last one. -/
def batchTrace (apiKey : Option String) (outF : Nat → FetchOutcome) (tf : Nat → Nat) :
    List String → Nat → List ResiItem → List Ev
  | [], _, _ => []
  | r :: rs, i, l =>
      Ev.setList (markLoading r l) :: Ev.remoteCall r ::
        Ev.setList (processStep apiKey (outF i) (tf i) r l) ::
          ((if rs.isEmpty then [] else [Ev.sleep 1000]) ++
            batchTrace apiKey outF tf rs (i + 1) (processStep apiKey (outF i) (tf i) r l))

structure AppState where
  resiNumbers : String
  resiList : List ResiItem
  isTracking : Bool
  deriving DecidableEq

/-- Full event trace of processResi: the three precondition checks in source
order (empty input, missing key, no valid token), then batch creation, the
flag, the loop, and the flag cleared at the very end. -/
def processResiTrace (apiKey : Option String) (outF : Nat → FetchOutcome) (tf : Nat → Nat)
    (s : AppState) : List Ev :=
  if jsTrim s.resiNumbers = "" then [Ev.alert "Silakan masukkan nomor resi"]
  else if keyPresent apiKey = false then
    [Ev.alert "API Key tidak ditemukan. Silakan cek konfigurasi environment variables."]
  else if (parseResi s.resiNumbers).isEmpty then [Ev.alert "Tidak ada nomor resi yang valid"]
  else
    (Ev.setList ((parseResi s.resiNumbers).map mkItem) :: Ev.setTracking true ::
      batchTrace apiKey outF tf (parseResi s.resiNumbers) 0
        ((parseResi s.resiNumbers).map mkItem)) ++ [Ev.setTracking false]

/-- Event trace of trackSingleResi: key check, then mark, one call, one store. -/
def trackSingleTrace (apiKey : Option String) (o : FetchOutcome) (t : Nat) (r : String)
    (l : List ResiItem) : List Ev :=
  if keyPresent apiKey = false then [Ev.alert "API Key tidak ditemukan"]
  else
    [Ev.setList (markLoading r l), Ev.remoteCall r,
      Ev.setList (processStep apiKey o t r l)]

/-- Effect of one event on the component state (alerts, calls and pauses do
not change it). -/
def applyEv (st : AppState) (e : Ev) : AppState :=
  match e with
  | .setList l => { st with resiList := l }
  | .setTracking b => { st with isTracking := b }
  | _ => st

def runTrace (s : AppState) (tr : List Ev) : AppState := tr.foldl applyEv s

/-- The state processResi leaves behind. -/
def processResi (apiKey : Option String) (outF : Nat → FetchOutcome) (tf : Nat → Nat)
    (s : AppState) : AppState :=
  runTrace s (processResiTrace apiKey outF tf s)

/-- The collection trackSingleResi leaves behind. -/
def trackSingleResi (apiKey : Option String) (o : FetchOutcome) (t : Nat) (r : String)
    (l : List ResiItem) : List ResiItem :=
  if keyPresent apiKey = false then l else processStep apiKey o t r l

/-- The remote calls a trace performs, in order. -/
def callsOf (tr : List Ev) : List String :=
  tr.filterMap fun e => match e with | .remoteCall r => some r | _ => none

/-- The setTimeout pauses of a trace, in order. -/
def sleepsOf (tr : List Ev) : List Nat :=
  tr.filterMap fun e => match e with | .sleep ms => some ms | _ => none

/-- The collection states written along a trace, in order. -/
def listsOf (tr : List Ev) : List (List ResiItem) :=
  tr.filterMap fun e => match e with | .setList l => some l | _ => none

/-- The isTracking values written along a trace, in order. -/
def tracksOf (tr : List Ev) : List Bool :=
  tr.filterMap fun e => match e with | .setTracking b => some b | _ => none

/-- Latest history description used by the exports ("-" when none). -/
def latestDesc (d : TrackingData) : String :=
  match d.data.history.head? with
  | some h => h.desc
  | none => "-"

/-- Latest history entry shown in the result card. -/
def getLatestHistory (item : ResiItem) : Option TrackingHistory :=
  match item.data with
  | some d => d.data.history.head?
  | none => none

namespace Components

/-- Error row of the export in src/components/PosTrackingSystem.tsx. -/
def errorRow (item : ResiItem) : List (String × String) :=
  [("No Resi", item.resi), ("Penerima", "-"), ("Status Terakhir", "-"),
    ("Pesan Error", jsOr item.error "Data tidak ditemukan")]

/-- One export row in src/components/PosTrackingSystem.tsx: the error row
when there is no payload or its status is not 200, the 4-cell data row
otherwise. -/
def exportRow (item : ResiItem) : List (String × String) :=
  match item.data with
  | some d =>
      if d.status = 200 then
        [("No Resi", item.resi), ("Penerima", d.data.detail.receiver),
          ("Status Terakhir", latestDesc d), ("Pesan Error", "")]
      else errorRow item
  | none => errorRow item

def exportToExcel (l : List ResiItem) : List (List (String × String)) := l.map exportRow

end Components

namespace Page

/-- Error row of the export in src/unnamed/part_000. -/
def errorRow (item : ResiItem) : List (String × String) :=
  [("No Resi", item.resi), ("Status", "ERROR"), ("Layanan", "-"), ("Tanggal", "-"),
    ("Pengirim", "-"), ("Penerima", "-"), ("Status Terakhir", "-"),
    ("Pesan Error", jsOr item.error "Data tidak ditemukan")]

/-- One export row in src/unnamed/part_000: the ERROR row when there is no
payload or its status is not 200, the 8-cell data row otherwise. -/
def exportRow (item : ResiItem) : List (String × String) :=
  match item.data with
  | some d =>
      if d.status = 200 then
        [("No Resi", item.resi), ("Status", d.data.summary.status),
          ("Layanan", d.data.summary.service), ("Tanggal", d.data.summary.date),
          ("Pengirim", d.data.detail.shipper), ("Penerima", d.data.detail.receiver),
          ("Status Terakhir", latestDesc d), ("Pesan Error", "")]
      else errorRow item
  | none => errorRow item

def exportToExcel (l : List ResiItem) : List (List (String × String)) := l.map exportRow

end Page

/-- resiList.filter(item => item.data?.status === 200).length -/
def successfulTrackings (l : List ResiItem) : Nat :=
  (l.filter fun item =>
    match item.data with | some d => d.status == 200 | none => false).length

/-- resiList.filter(item => item.data?.status !== 200 || item.error).length -/
def failedTrackings (l : List ResiItem) : Nat :=
  (l.filter fun item =>
    (match item.data with | some d => d.status != 200 | none => true) ||
      (match item.error with | some e => e != "" | none => false)).length

/-- Render condition of the success panel: item.data && item.data.status === 200 && item.data.data. -/
def showsSuccess (item : ResiItem) : Bool :=
  match item.data with | some d => d.status == 200 | none => false

/-- Render condition of the not-found panel: item.data && item.data.status !== 200. -/
def showsNotFound (item : ResiItem) : Bool :=
  match item.data with | some d => d.status != 200 | none => false

/-- Exactly one of payload and error is set. -/
def exactlyOne (a : ResiItem) : Prop :=
  (a.data ≠ none ∧ a.error = none) ∨ (a.data = none ∧ a.error ≠ none)

/-- Payload and error are not both set. -/
def notBoth (a : ResiItem) : Prop := a.data = none ∨ a.error = none

/-- Any two records in progress at the same instant carry the same identifier. -/
def loadingOk (l : List ResiItem) : Prop :=
  ∀ a ∈ l, ∀ b ∈ l, a.loading = true → b.loading = true → a.resi = b.resi

/-- No record is in progress. -/
def noneLoading (l : List ResiItem) : Prop := ∀ a ∈ l, a.loading = false

/-- The collection states the batch loop writes, in order (two per iteration:
the loading mark and the store). -/
def loopLists (apiKey : Option String) (outF : Nat → FetchOutcome) (tf : Nat → Nat) :
    List String → Nat → List ResiItem → List (List ResiItem)
  | [], _, _ => []
  | r :: rs, i, l =>
      markLoading r l :: processStep apiKey (outF i) (tf i) r l ::
        loopLists apiKey outF tf rs (i + 1) (processStep apiKey (outF i) (tf i) r l)

section Lemmas

lemma markItem_resi (r : String) (a : ResiItem) : (markItem r a).resi = a.resi := by
  unfold markItem; split <;> rfl

lemma storeOkItem_resi (r : String) (d : TrackingData) (t : Nat) (a : ResiItem) :
    (storeOkItem r d t a).resi = a.resi := by
  unfold storeOkItem; split <;> rfl

lemma storeErrItem_resi (r : String) (m : String) (t : Nat) (a : ResiItem) :
    (storeErrItem r m t a).resi = a.resi := by
  unfold storeErrItem; split <;> rfl

lemma markItem_of_ne {r : String} {a : ResiItem} (h : a.resi ≠ r) : markItem r a = a := by
  unfold markItem; simp [h]

lemma markItem_of_eq {r : String} {a : ResiItem} (h : a.resi = r) :
    markItem r a = { a with loading := true, error := none } := by
  unfold markItem; simp [h]

lemma storeOkItem_of_ne {r : String} {d : TrackingData} {t : Nat} {a : ResiItem}
    (h : a.resi ≠ r) : storeOkItem r d t a = a := by
  unfold storeOkItem; simp [h]

lemma storeErrItem_of_ne {r : String} {m : String} {t : Nat} {a : ResiItem}
    (h : a.resi ≠ r) : storeErrItem r m t a = a := by
  unfold storeErrItem; simp [h]

lemma stepItem_of_ne {k : Option String} {o : FetchOutcome} {t : Nat} {r : String}
    {a : ResiItem} (h : a.resi ≠ r) : stepItem k o t r a = a := by
  unfold stepItem
  cases h2 : trackResi k o <;>
    simp [markItem_of_ne h, storeOkItem_of_ne h, storeErrItem_of_ne h]

lemma stepItem_of_eq_ok {k : Option String} {o : FetchOutcome} {t : Nat} {r : String}
    {a : ResiItem} {d : TrackingData} (h : a.resi = r) (h2 : trackResi k o = Except.ok d) :
    stepItem k o t r a =
      { a with data := some d, loading := false, error := none, lastUpdated := some t } := by
  unfold stepItem
  rw [h2]
  simp [markItem, storeOkItem, h]

lemma stepItem_of_eq_err {k : Option String} {o : FetchOutcome} {t : Nat} {r : String}
    {a : ResiItem} {m : String} (h : a.resi = r) (h2 : trackResi k o = Except.error m) :
    stepItem k o t r a =
      { a with data := none, loading := false, error := some m, lastUpdated := some t } := by
  unfold stepItem
  rw [h2]
  simp [markItem, storeErrItem, h]

lemma stepItem_resi (k : Option String) (o : FetchOutcome) (t : Nat) (r : String)
    (a : ResiItem) : (stepItem k o t r a).resi = a.resi := by
  unfold stepItem
  cases h : trackResi k o <;> simp [storeOkItem_resi, storeErrItem_resi, markItem_resi]

lemma processStep_eq_map (k : Option String) (o : FetchOutcome) (t : Nat) (r : String)
    (l : List ResiItem) : processStep k o t r l = l.map (stepItem k o t r) := by
  unfold processStep stepItem storeSuccess storeError markLoading
  cases h : trackResi k o <;> simp [List.map_map, Function.comp]

lemma stepItem_exactlyOne {k : Option String} {o : FetchOutcome} {t : Nat} {r : String}
    {a : ResiItem} (h : a.resi = r) : exactlyOne (stepItem k o t r a) := by
  cases h2 : trackResi k o with
  | error m => rw [stepItem_of_eq_err h h2]; exact Or.inr ⟨rfl, by simp⟩
  | ok d => rw [stepItem_of_eq_ok h h2]; exact Or.inl ⟨by simp, rfl⟩

lemma notBoth_of_exactlyOne {a : ResiItem} (h : exactlyOne a) : notBoth a := by
  rcases h with ⟨_, h2⟩ | ⟨h1, _⟩
  · exact Or.inr h2
  · exact Or.inl h1

lemma notBoth_markLoading {r : String} {l : List ResiItem} (h : ∀ a ∈ l, notBoth a) :
    ∀ a ∈ markLoading r l, notBoth a := by
  intro a ha
  obtain ⟨b, hb, rfl⟩ := List.mem_map.mp ha
  unfold markItem
  split
  · exact Or.inr rfl
  · exact h b hb

lemma notBoth_processStep {k : Option String} {o : FetchOutcome} {t : Nat} {r : String}
    {l : List ResiItem} (h : ∀ a ∈ l, notBoth a) : ∀ a ∈ processStep k o t r l, notBoth a := by
  intro a ha
  rw [processStep_eq_map] at ha
  obtain ⟨b, hb, rfl⟩ := List.mem_map.mp ha
  by_cases hbr : b.resi = r
  · exact notBoth_of_exactlyOne (stepItem_exactlyOne hbr)
  · rw [stepItem_of_ne hbr]; exact h b hb

lemma markLoading_loading {r : String} {l : List ResiItem} (h : noneLoading l) :
    ∀ a ∈ markLoading r l, a.loading = true → a.resi = r := by
  intro a ha hl
  obtain ⟨b, hb, rfl⟩ := List.mem_map.mp ha
  by_cases hbr : b.resi = r
  · rw [markItem_resi]; exact hbr
  · rw [markItem_of_ne hbr] at hl
    exact absurd hl (by simp [h b hb])

lemma loadingOk_markLoading {r : String} {l : List ResiItem} (h : noneLoading l) :
    loadingOk (markLoading r l) := by
  intro a ha b hb hla hlb
  rw [markLoading_loading h a ha hla, markLoading_loading h b hb hlb]

lemma noneLoading_processStep {k : Option String} {o : FetchOutcome} {t : Nat} {r : String}
    {l : List ResiItem} (h : noneLoading l) : noneLoading (processStep k o t r l) := by
  rw [processStep_eq_map]
  intro a ha
  obtain ⟨b, hb, rfl⟩ := List.mem_map.mp ha
  by_cases hbr : b.resi = r
  · cases h2 : trackResi k o with
    | error m => rw [stepItem_of_eq_err hbr h2]
    | ok d => rw [stepItem_of_eq_ok hbr h2]
  · rw [stepItem_of_ne hbr]; exact h b hb

lemma loadingOk_of_noneLoading {l : List ResiItem} (h : noneLoading l) : loadingOk l := by
  intro a ha b hb hla _
  exact absurd hla (by simp [h a ha])

lemma callsOf_batchTrace (k : Option String) (outF : Nat → FetchOutcome) (tf : Nat → Nat) :
    ∀ (rs : List String) (i : Nat) (l : List ResiItem),
      callsOf (batchTrace k outF tf rs i l) = rs
  | [], _, _ => rfl
  | r :: rs, i, l => by
      have ih := callsOf_batchTrace k outF tf rs (i + 1) (processStep k (outF i) (tf i) r l)
      cases hrs : rs.isEmpty <;>
        simp_all [batchTrace, callsOf, List.filterMap_cons, List.filterMap_append]

lemma sleepsOf_batchTrace (k : Option String) (outF : Nat → FetchOutcome) (tf : Nat → Nat) :
    ∀ (rs : List String) (i : Nat) (l : List ResiItem),
      sleepsOf (batchTrace k outF tf rs i l) = List.replicate (rs.length - 1) 1000
  | [], _, _ => rfl
  | r :: rs, i, l => by
      have ih := sleepsOf_batchTrace k outF tf rs (i + 1) (processStep k (outF i) (tf i) r l)
      cases rs with
      | nil => rfl
      | cons r2 rs2 =>
          simp_all [batchTrace, sleepsOf, List.filterMap_cons, List.filterMap_append,
            List.replicate_succ]

lemma tracksOf_batchTrace (k : Option String) (outF : Nat → FetchOutcome) (tf : Nat → Nat) :
    ∀ (rs : List String) (i : Nat) (l : List ResiItem),
      tracksOf (batchTrace k outF tf rs i l) = []
  | [], _, _ => rfl
  | r :: rs, i, l => by
      have ih := tracksOf_batchTrace k outF tf rs (i + 1) (processStep k (outF i) (tf i) r l)
      cases hrs : rs.isEmpty <;>
        simp_all [batchTrace, tracksOf, List.filterMap_cons, List.filterMap_append]

lemma listsOf_batchTrace (k : Option String) (outF : Nat → FetchOutcome) (tf : Nat → Nat) :
    ∀ (rs : List String) (i : Nat) (l : List ResiItem),
      listsOf (batchTrace k outF tf rs i l) = loopLists k outF tf rs i l
  | [], _, _ => rfl
  | r :: rs, i, l => by
      have ih := listsOf_batchTrace k outF tf rs (i + 1) (processStep k (outF i) (tf i) r l)
      cases hrs : rs.isEmpty <;>
        simp_all [batchTrace, loopLists, listsOf, List.filterMap_cons, List.filterMap_append]

/-- Generic invariant/observation lemma over the loop's written states: if
`Inv` is preserved by the loop body and both the mark and the store of a body
whose input satisfies `Inv` satisfy `Q`, then every written state satisfies
`Q`. -/
lemma loopLists_pres (k : Option String) (outF : Nat → FetchOutcome) (tf : Nat → Nat)
    (Inv Q : List ResiItem → Prop)
    (hmark : ∀ r l, Inv l → Q (markLoading r l))
    (hstepQ : ∀ o t r l, Inv l → Q (processStep k o t r l))
    (hstepInv : ∀ o t r l, Inv l → Inv (processStep k o t r l)) :
    ∀ (rs : List String) (i : Nat) (l : List ResiItem), Inv l →
      ∀ l' ∈ loopLists k outF tf rs i l, Q l'
  | [], _, _, _ => by intro l' hl'; simp [loopLists] at hl'
  | r :: rs, i, l, hInv => by
      intro l' hl'
      simp only [loopLists, List.mem_cons] at hl'
      rcases hl' with rfl | rfl | h3
      · exact hmark _ _ hInv
      · exact hstepQ _ _ _ _ hInv
      · exact loopLists_pres k outF tf Inv Q hmark hstepQ hstepInv rs (i + 1) _
          (hstepInv _ _ _ _ hInv) l' h3

lemma processLoop_exactlyOne (k : Option String) (outF : Nat → FetchOutcome) (tf : Nat → Nat) :
    ∀ (rs : List String) (i : Nat) (l : List ResiItem),
      (∀ a ∈ l, a.resi ∉ rs → exactlyOne a) →
      ∀ a ∈ processLoop k outF tf rs i l, exactlyOne a
  | [], _, _, h => fun a ha => h a ha (by simp)
  | r :: rs, i, l, h => by
      intro a ha
      refine processLoop_exactlyOne k outF tf rs (i + 1) _ ?_ a ha
      intro b hb hbrs
      rw [processStep_eq_map] at hb
      obtain ⟨c, hc, rfl⟩ := List.mem_map.mp hb
      by_cases hcr : c.resi = r
      · exact stepItem_exactlyOne hcr
      · rw [stepItem_of_ne hcr] at hbrs ⊢
        exact h c hc (by simp [List.mem_cons, hcr, hbrs])

lemma runTrace_batchTrace (k : Option String) (outF : Nat → FetchOutcome) (tf : Nat → Nat) :
    ∀ (rs : List String) (i : Nat) (l : List ResiItem) (st : AppState), st.resiList = l →
      runTrace st (batchTrace k outF tf rs i l) =
        { st with resiList := processLoop k outF tf rs i l }
  | [], i, l, st, h => by
      cases st
      simp_all [batchTrace, processLoop, runTrace]
  | r :: rs, i, l, st, h => by
      have ih := runTrace_batchTrace k outF tf rs (i + 1) (processStep k (outF i) (tf i) r l)
        { st with resiList := processStep k (outF i) (tf i) r l } rfl
      cases hrs : rs.isEmpty <;>
        simp_all [batchTrace, runTrace, List.foldl_append, applyEv, processLoop]

lemma keyPresent_some {k : String} (hk : k ≠ "") : keyPresent (some k) = true := by
  simp [keyPresent, hk]

lemma processResiTrace_success (outF : Nat → FetchOutcome) (tf : Nat → Nat) (s : AppState)
    (apiKey : Option String) (hkp : keyPresent apiKey = true)
    (ht : jsTrim s.resiNumbers ≠ "") (hts : parseResi s.resiNumbers ≠ []) :
    processResiTrace apiKey outF tf s =
      (Ev.setList ((parseResi s.resiNumbers).map mkItem) :: Ev.setTracking true ::
        batchTrace apiKey outF tf (parseResi s.resiNumbers) 0
          ((parseResi s.resiNumbers).map mkItem)) ++ [Ev.setTracking false] := by
  unfold processResiTrace
  simp [ht, hkp, hts]

lemma processResi_success (outF : Nat → FetchOutcome) (tf : Nat → Nat) (s : AppState)
    (apiKey : Option String) (hkp : keyPresent apiKey = true)
    (ht : jsTrim s.resiNumbers ≠ "") (hts : parseResi s.resiNumbers ≠ []) :
    processResi apiKey outF tf s =
      { s with
        resiList := processLoop apiKey outF tf (parseResi s.resiNumbers) 0
          ((parseResi s.resiNumbers).map mkItem),
        isTracking := false } := by
  unfold processResi
  rw [processResiTrace_success outF tf s apiKey hkp ht hts]
  rw [show (Ev.setList ((parseResi s.resiNumbers).map mkItem) :: Ev.setTracking true ::
        batchTrace apiKey outF tf (parseResi s.resiNumbers) 0
          ((parseResi s.resiNumbers).map mkItem)) ++ [Ev.setTracking false] =
      Ev.setList ((parseResi s.resiNumbers).map mkItem) :: Ev.setTracking true ::
        (batchTrace apiKey outF tf (parseResi s.resiNumbers) 0
          ((parseResi s.resiNumbers).map mkItem) ++ [Ev.setTracking false]) by simp]
  unfold runTrace
  rw [List.foldl_cons, List.foldl_cons, List.foldl_append]
  rw [show List.foldl applyEv (applyEv (applyEv s
      (Ev.setList ((parseResi s.resiNumbers).map mkItem))) (Ev.setTracking true))
      (batchTrace apiKey outF tf (parseResi s.resiNumbers) 0
        ((parseResi s.resiNumbers).map mkItem)) =
    runTrace { s with resiList := (parseResi s.resiNumbers).map mkItem, isTracking := true }
      (batchTrace apiKey outF tf (parseResi s.resiNumbers) 0
        ((parseResi s.resiNumbers).map mkItem)) by rfl]
  rw [runTrace_batchTrace apiKey outF tf (parseResi s.resiNumbers) 0
    ((parseResi s.resiNumbers).map mkItem) _ rfl]
  rfl

@[simp] lemma callsOf_nil : callsOf [] = [] := rfl

@[simp] lemma callsOf_append (tr tr' : List Ev) :
    callsOf (tr ++ tr') = callsOf tr ++ callsOf tr' := by
  simp [callsOf]

@[simp] lemma callsOf_alert_cons (m : String) (tr : List Ev) :
    callsOf (Ev.alert m :: tr) = callsOf tr := rfl

@[simp] lemma callsOf_setList_cons (l : List ResiItem) (tr : List Ev) :
    callsOf (Ev.setList l :: tr) = callsOf tr := rfl

@[simp] lemma callsOf_setTracking_cons (b : Bool) (tr : List Ev) :
    callsOf (Ev.setTracking b :: tr) = callsOf tr := rfl

@[simp] lemma callsOf_remoteCall_cons (r : String) (tr : List Ev) :
    callsOf (Ev.remoteCall r :: tr) = r :: callsOf tr := rfl

@[simp] lemma callsOf_sleep_cons (ms : Nat) (tr : List Ev) :
    callsOf (Ev.sleep ms :: tr) = callsOf tr := rfl

@[simp] lemma sleepsOf_nil : sleepsOf [] = [] := rfl

@[simp] lemma sleepsOf_append (tr tr' : List Ev) :
    sleepsOf (tr ++ tr') = sleepsOf tr ++ sleepsOf tr' := by
  simp [sleepsOf]

@[simp] lemma sleepsOf_alert_cons (m : String) (tr : List Ev) :
    sleepsOf (Ev.alert m :: tr) = sleepsOf tr := rfl

@[simp] lemma sleepsOf_setList_cons (l : List ResiItem) (tr : List Ev) :
    sleepsOf (Ev.setList l :: tr) = sleepsOf tr := rfl

@[simp] lemma sleepsOf_setTracking_cons (b : Bool) (tr : List Ev) :
    sleepsOf (Ev.setTracking b :: tr) = sleepsOf tr := rfl

@[simp] lemma sleepsOf_remoteCall_cons (r : String) (tr : List Ev) :
    sleepsOf (Ev.remoteCall r :: tr) = sleepsOf tr := rfl

@[simp] lemma sleepsOf_sleep_cons (ms : Nat) (tr : List Ev) :
    sleepsOf (Ev.sleep ms :: tr) = ms :: sleepsOf tr := rfl

@[simp] lemma listsOf_nil : listsOf [] = [] := rfl

@[simp] lemma listsOf_append (tr tr' : List Ev) :
    listsOf (tr ++ tr') = listsOf tr ++ listsOf tr' := by
  simp [listsOf]

@[simp] lemma listsOf_alert_cons (m : String) (tr : List Ev) :
    listsOf (Ev.alert m :: tr) = listsOf tr := rfl

@[simp] lemma listsOf_setList_cons (l : List ResiItem) (tr : List Ev) :
    listsOf (Ev.setList l :: tr) = l :: listsOf tr := rfl

@[simp] lemma listsOf_setTracking_cons (b : Bool) (tr : List Ev) :
    listsOf (Ev.setTracking b :: tr) = listsOf tr := rfl

@[simp] lemma listsOf_remoteCall_cons (r : String) (tr : List Ev) :
    listsOf (Ev.remoteCall r :: tr) = listsOf tr := rfl

@[simp] lemma listsOf_sleep_cons (ms : Nat) (tr : List Ev) :
    listsOf (Ev.sleep ms :: tr) = listsOf tr := rfl

@[simp] lemma tracksOf_nil : tracksOf [] = [] := rfl

@[simp] lemma tracksOf_append (tr tr' : List Ev) :
    tracksOf (tr ++ tr') = tracksOf tr ++ tracksOf tr' := by
  simp [tracksOf]

@[simp] lemma tracksOf_alert_cons (m : String) (tr : List Ev) :
    tracksOf (Ev.alert m :: tr) = tracksOf tr := rfl

@[simp] lemma tracksOf_setList_cons (l : List ResiItem) (tr : List Ev) :
    tracksOf (Ev.setList l :: tr) = tracksOf tr := rfl

@[simp] lemma tracksOf_setTracking_cons (b : Bool) (tr : List Ev) :
    tracksOf (Ev.setTracking b :: tr) = b :: tracksOf tr := rfl

@[simp] lemma tracksOf_remoteCall_cons (r : String) (tr : List Ev) :
    tracksOf (Ev.remoteCall r :: tr) = tracksOf tr := rfl

@[simp] lemma tracksOf_sleep_cons (ms : Nat) (tr : List Ev) :
    tracksOf (Ev.sleep ms :: tr) = tracksOf tr := rfl

lemma runTrace_alert (s : AppState) (m : String) : runTrace s [Ev.alert m] = s := rfl

lemma processResiTrace_precond (apiKey : Option String) (outF : Nat → FetchOutcome)
    (tf : Nat → Nat) (s : AppState)
    (h : keyPresent apiKey = false ∨ parseResi s.resiNumbers = []) :
    ∃ m, processResiTrace apiKey outF tf s = [Ev.alert m] := by
  unfold processResiTrace
  by_cases ht : jsTrim s.resiNumbers = ""
  · exact ⟨"Silakan masukkan nomor resi", by simp [ht]⟩
  cases hkp : keyPresent apiKey with
  | false =>
      exact ⟨"API Key tidak ditemukan. Silakan cek konfigurasi environment variables.",
        by simp [ht, hkp]⟩
  | true =>
      rcases h with h | h
      · rw [hkp] at h; exact absurd h (by simp)
      · exact ⟨"Tidak ada nomor resi yang valid", by simp [ht, hkp, h]⟩

lemma markLoading_of_no_match {r : String} {l : List ResiItem}
    (hm : ∀ a ∈ l, a.resi ≠ r) : markLoading r l = l := by
  unfold markLoading
  induction l with
  | nil => rfl
  | cons a t ih =>
      simp only [List.map_cons]
      rw [markItem_of_ne (hm a (by simp)), ih (fun b hb => hm b (by simp [hb]))]

lemma processStep_of_no_match {k : Option String} {o : FetchOutcome} {t : Nat} {r : String}
    {l : List ResiItem} (hm : ∀ a ∈ l, a.resi ≠ r) : processStep k o t r l = l := by
  rw [processStep_eq_map]
  induction l with
  | nil => rfl
  | cons a tl ih =>
      simp only [List.map_cons]
      rw [stepItem_of_ne (hm a (by simp)), ih (fun b hb => hm b (by simp [hb]))]

end Lemmas

/-! Concrete sample values used by witnesses and counterexamples. -/

def sampleInner : TrackingInner :=
  { summary := { awb := "P1", courier := "pos", service := "Reguler", status := "DELIVERED",
                 date := "2025-01-01", desc := "ok", amount := "0", weight := "1" },
    detail := { origin := "Bandung", destination := "Jakarta", shipper := "Andi",
                receiver := "Budi" },
    history := [{ date := "2025-01-01", desc := "Delivered to recipient",
                  location := "Jakarta" }] }

def sampleData200 : TrackingData := { status := 200, message := "OK", data := sampleInner }

def sampleData201 : TrackingData := { status := 201, message := "Created", data := sampleInner }

def sampleOkItem : ResiItem :=
  { resi := "P1", data := some sampleData200, loading := false, error := none,
    lastUpdated := some 0 }

/-- The record as the success store leaves it: payload set, not loading, no
error, timestamp stamped. -/
def mkStored (r : String) (d : TrackingData) (t : Nat) : ResiItem :=
  { resi := r, data := some d, loading := false, error := none, lastUpdated := some t }

/-- C1: submit (processResi) splits the raw text on commas and newlines, trims
each token, keeps exactly the nonempty tokens starting with "P", and creates
exactly one fresh record per kept token, in input order (the first collection
write of the trace is that batch); if zero tokens survive, it alerts, writes
no collection state, and leaves the state unchanged. -/
theorem submit_one_record_per_token (k : String) (outF : Nat → FetchOutcome)
    (tf : Nat → Nat) (s : AppState) (hk : k ≠ "") :
    (parseResi s.resiNumbers =
      ((splitChars (fun c => c == '\n' || c == ',') s.resiNumbers.data).map
          (fun cs => jsTrim ⟨cs⟩)).filter
        (fun r => decide (0 < r.length) && startsWithP r)) ∧
    (∀ tok ∈ parseResi s.resiNumbers, tok ≠ "" ∧ startsWithP tok = true) ∧
    (parseResi s.resiNumbers ≠ [] → jsTrim s.resiNumbers ≠ "" →
      (processResiTrace (some k) outF tf s).head? =
        some (Ev.setList ((parseResi s.resiNumbers).map mkItem)) ∧
      ((parseResi s.resiNumbers).map mkItem).map ResiItem.resi = parseResi s.resiNumbers ∧
      ∀ r : String, mkItem r =
        { resi := r, data := none, loading := false, error := none, lastUpdated := none }) ∧
    (parseResi s.resiNumbers = [] →
      (∃ m, processResiTrace (some k) outF tf s = [Ev.alert m]) ∧
      listsOf (processResiTrace (some k) outF tf s) = [] ∧
      processResi (some k) outF tf s = s) := by
  refine ⟨rfl, ?_, ?_, ?_⟩
  · intro tok htok
    unfold parseResi at htok
    have h2 := (List.mem_filter.mp htok).2
    have h3 : 0 < tok.length ∧ startsWithP tok = true := by simpa using h2
    refine ⟨?_, h3.2⟩
    have hpos := h3.1
    intro he
    rw [he] at hpos
    simp [String.length] at hpos
  · intro hts ht
    rw [processResiTrace_success outF tf s (some k) (keyPresent_some hk) ht hts]
    refine ⟨rfl, ?_, fun r => rfl⟩
    rw [List.map_map, show ResiItem.resi ∘ mkItem = id from rfl, List.map_id]
  · intro hts0
    obtain ⟨m, hm⟩ := processResiTrace_precond (some k) outF tf s (Or.inr hts0)
    refine ⟨⟨m, hm⟩, ?_, ?_⟩
    · rw [hm]; rfl
    · unfold processResi
      rw [hm]
      rfl

/-- C1 witness: on input "P1, P2\nP3" submit creates the fresh batch
[P1, P2, P3], in that order. -/
theorem submit_one_record_per_token_witness :
    (processResiTrace (some "k") (fun _ => FetchOutcome.httpError 500) (fun _ => 0)
        { resiNumbers := "P1, P2\nP3", resiList := [], isTracking := false }).head? =
      some (Ev.setList [mkItem "P1", mkItem "P2", mkItem "P3"]) := by
  have h := ((submit_one_record_per_token "k" (fun _ => FetchOutcome.httpError 500)
    (fun _ => 0) { resiNumbers := "P1, P2\nP3", resiList := [], isTracking := false }
    (by decide)).2.2.1 (by decide) (by decide)).1
  rw [h]
  decide

/-- C4: when the credential is absent (or blank, which JS also treats as
missing) or the input yields no valid token, submit alerts and returns before
any record is created or mutated: no remote call, no collection write, state
unchanged. -/
theorem precondition_failure_no_mutation (apiKey : Option String)
    (outF : Nat → FetchOutcome) (tf : Nat → Nat) (s : AppState)
    (h : keyPresent apiKey = false ∨ parseResi s.resiNumbers = []) :
    callsOf (processResiTrace apiKey outF tf s) = [] ∧
    listsOf (processResiTrace apiKey outF tf s) = [] ∧
    (∃ m, processResiTrace apiKey outF tf s = [Ev.alert m]) ∧
    processResi apiKey outF tf s = s := by
  obtain ⟨m, hm⟩ := processResiTrace_precond apiKey outF tf s h
  refine ⟨by rw [hm]; rfl, by rw [hm]; rfl, ⟨m, hm⟩, ?_⟩
  unfold processResi
  rw [hm]
  rfl

/-- C4 witness: with no API key configured, submit on "P1" leaves the empty
batch empty and performs zero remote calls. -/
theorem precondition_failure_no_mutation_witness :
    callsOf (processResiTrace none (fun _ => FetchOutcome.httpError 500) (fun _ => 0)
        { resiNumbers := "P1", resiList := [], isTracking := false }) = [] ∧
    processResi none (fun _ => FetchOutcome.httpError 500) (fun _ => 0)
        { resiNumbers := "P1", resiList := [], isTracking := false } =
      { resiNumbers := "P1", resiList := [], isTracking := false } := by
  have h := precondition_failure_no_mutation none (fun _ => FetchOutcome.httpError 500)
    (fun _ => 0) { resiNumbers := "P1", resiList := [], isTracking := false }
    (Or.inl (by decide))
  exact ⟨h.1, h.2.2.2⟩

/-- C5: every record mutation (loading mark, success store, failure store) in
both the batch loop and the single refresh maps over the whole collection and
rewrites exactly the positions whose identifier equals the key, leaving the
others untouched; with duplicate identifiers all matches are rewritten. -/
theorem keyed_updates_hit_all_matches (r : String) (d : TrackingData) (m : String)
    (t : Nat) (l : List ResiItem) (i : Nat) :
    (markLoading r l).length = l.length ∧
    (storeSuccess r d t l).length = l.length ∧
    (storeError r m t l).length = l.length ∧
    (markLoading r l)[i]? = (l[i]?).map (markItem r) ∧
    (storeSuccess r d t l)[i]? = (l[i]?).map (storeOkItem r d t) ∧
    (storeError r m t l)[i]? = (l[i]?).map (storeErrItem r m t) ∧
    (∀ a : ResiItem, a.resi = r →
      markItem r a = { a with loading := true, error := none } ∧
      storeOkItem r d t a =
        { a with data := some d, loading := false, error := none, lastUpdated := some t } ∧
      storeErrItem r m t a =
        { a with data := none, loading := false, error := some m, lastUpdated := some t }) ∧
    (∀ a : ResiItem, a.resi ≠ r →
      markItem r a = a ∧ storeOkItem r d t a = a ∧ storeErrItem r m t a = a) := by
  refine ⟨by simp [markLoading], by simp [storeSuccess], by simp [storeError],
    by simp [markLoading, List.getElem?_map], by simp [storeSuccess, List.getElem?_map],
    by simp [storeError, List.getElem?_map], ?_, ?_⟩
  · intro a ha
    exact ⟨markItem_of_eq ha, by unfold storeOkItem; simp [ha], by unfold storeErrItem; simp [ha]⟩
  · intro a ha
    exact ⟨markItem_of_ne ha, storeOkItem_of_ne ha, storeErrItem_of_ne ha⟩

/-- C5 witness: with two records sharing identifier "P1", the loading mark
keyed on "P1" also rewrites the second record. -/
theorem keyed_updates_hit_all_matches_witness :
    (markLoading "P1" [mkItem "P1", mkItem "P1"])[1]? =
      some { resi := "P1", data := none, loading := true, error := none,
             lastUpdated := none } := by
  have h := (keyed_updates_hit_all_matches "P1" sampleData200 "m" 0
    [mkItem "P1", mkItem "P1"] 1).2.2.2.1
  rw [h]
  decide

/-- C2: after the batch loop completes, every record of the batch has exactly
one of payload and error set; a single refresh preserves that property; a
store after a successful lookup sets the payload and clears the error, a
store after a failed lookup clears the payload and sets the error. -/
theorem completed_records_have_exactly_one (k : String) (outF : Nat → FetchOutcome)
    (tf : Nat → Nat) (s : AppState) (hk : k ≠ "") (ht : jsTrim s.resiNumbers ≠ "")
    (hts : parseResi s.resiNumbers ≠ []) :
    (∀ a ∈ (processResi (some k) outF tf s).resiList, exactlyOne a) ∧
    (∀ (apiKey : Option String) (o : FetchOutcome) (t : Nat) (r : String)
        (l : List ResiItem), (∀ a ∈ l, exactlyOne a) →
      ∀ a ∈ trackSingleResi apiKey o t r l, exactlyOne a) ∧
    (∀ (apiKey : Option String) (o : FetchOutcome) (t : Nat) (r : String)
        (l : List ResiItem) (d : TrackingData), trackResi apiKey o = Except.ok d →
      ∀ a ∈ processStep apiKey o t r l, a.resi = r → a.data = some d ∧ a.error = none) ∧
    (∀ (apiKey : Option String) (o : FetchOutcome) (t : Nat) (r : String)
        (l : List ResiItem) (m : String), trackResi apiKey o = Except.error m →
      ∀ a ∈ processStep apiKey o t r l, a.resi = r → a.data = none ∧ a.error = some m) := by
  refine ⟨?_, ?_, ?_, ?_⟩
  · rw [processResi_success outF tf s (some k) (keyPresent_some hk) ht hts]
    apply processLoop_exactlyOne
    intro a ha hnot
    obtain ⟨x, hx, rfl⟩ := List.mem_map.mp ha
    exact absurd hx (by simpa [mkItem] using hnot)
  · intro apiKey o t r l hl a ha
    unfold trackSingleResi at ha
    by_cases hkp : keyPresent apiKey = false
    · rw [if_pos hkp] at ha
      exact hl a ha
    · rw [if_neg hkp, processStep_eq_map] at ha
      obtain ⟨b, hb, rfl⟩ := List.mem_map.mp ha
      by_cases hbr : b.resi = r
      · exact stepItem_exactlyOne hbr
      · rw [stepItem_of_ne hbr]
        exact hl b hb
  · intro apiKey o t r l d h2 a ha har
    rw [processStep_eq_map] at ha
    obtain ⟨b, hb, rfl⟩ := List.mem_map.mp ha
    have hbr : b.resi = r := by rw [← stepItem_resi apiKey o t r b]; exact har
    rw [stepItem_of_eq_ok hbr h2]
    exact ⟨rfl, rfl⟩
  · intro apiKey o t r l m h2 a ha har
    rw [processStep_eq_map] at ha
    obtain ⟨b, hb, rfl⟩ := List.mem_map.mp ha
    have hbr : b.resi = r := by rw [← stepItem_resi apiKey o t r b]; exact har
    rw [stepItem_of_eq_err hbr h2]
    exact ⟨rfl, rfl⟩

/-- C2 witness: a batch over "P1,P2" whose calls fail with HTTP 500 ends with
the first record holding an error and no payload. -/
theorem completed_records_have_exactly_one_witness :
    exactlyOne { resi := "P1", data := none, loading := false,
                 error := some "HTTP error! status: 500", lastUpdated := some 0 } := by
  have h := (completed_records_have_exactly_one "k" (fun _ => FetchOutcome.httpError 500)
    (fun _ => 0) { resiNumbers := "P1,P2", resiList := [], isTracking := false }
    (by decide) (by decide) (by decide)).1
  exact h _ (by decide)

/-- C3 (amended): records are attempted strictly in submission order and a
batch of N records incurs exactly N-1 delays of 1000 ms; at every instant all
in-progress records carry the identifier currently being processed — exactly
one record when identifiers are unique, but every duplicate of the current
identifier at once. -/
theorem batch_sequential_with_delays (k : String) (outF : Nat → FetchOutcome)
    (tf : Nat → Nat) (s : AppState) (hk : k ≠ "") (ht : jsTrim s.resiNumbers ≠ "")
    (hts : parseResi s.resiNumbers ≠ []) :
    callsOf (processResiTrace (some k) outF tf s) = parseResi s.resiNumbers ∧
    sleepsOf (processResiTrace (some k) outF tf s) =
      List.replicate ((parseResi s.resiNumbers).length - 1) 1000 ∧
    ∀ l' ∈ listsOf (processResiTrace (some k) outF tf s), loadingOk l' := by
  rw [processResiTrace_success outF tf s (some k) (keyPresent_some hk) ht hts]
  have hfresh : noneLoading ((parseResi s.resiNumbers).map mkItem) := by
    intro a ha
    obtain ⟨x, hx, rfl⟩ := List.mem_map.mp ha
    rfl
  refine ⟨?_, ?_, ?_⟩
  · simp [callsOf_batchTrace]
  · simp [sleepsOf_batchTrace]
  · intro l' hl'
    simp only [List.cons_append, listsOf_setList_cons, listsOf_setTracking_cons,
      listsOf_append, listsOf_nil, listsOf_batchTrace, List.append_nil] at hl'
    rcases List.mem_cons.mp hl' with rfl | hl2
    · exact loadingOk_of_noneLoading hfresh
    · exact loopLists_pres (some k) outF tf noneLoading loadingOk
        (fun r l h => loadingOk_markLoading h)
        (fun o t r l h => loadingOk_of_noneLoading (noneLoading_processStep h))
        (fun o t r l h => noneLoading_processStep h)
        (parseResi s.resiNumbers) 0 _ hfresh l' hl2

/-- C3 witness: submitting "P1, P2\nP3" issues the three calls in input order
and pauses exactly twice. -/
theorem batch_sequential_with_delays_witness :
    callsOf (processResiTrace (some "k") (fun _ => FetchOutcome.httpError 500) (fun _ => 0)
        { resiNumbers := "P1, P2\nP3", resiList := [], isTracking := false }) =
      ["P1", "P2", "P3"] ∧
    sleepsOf (processResiTrace (some "k") (fun _ => FetchOutcome.httpError 500) (fun _ => 0)
        { resiNumbers := "P1, P2\nP3", resiList := [], isTracking := false }) =
      [1000, 1000] := by
  have h := batch_sequential_with_delays "k" (fun _ => FetchOutcome.httpError 500)
    (fun _ => 0) { resiNumbers := "P1, P2\nP3", resiList := [], isTracking := false }
    (by decide) (by decide) (by decide)
  refine ⟨?_, ?_⟩
  · rw [h.1]; decide
  · rw [h.2.1]; decide

/-- C3 counterexample: submitting the duplicate input "P1,P1" creates two
records with the same identifier, and the very first loading mark (the second
collection state written, index 1) puts both in progress at once, refuting
"at most one record is in-progress at any instant". -/
theorem at_most_one_in_progress_cex :
    ((listsOf (processResiTrace (some "k") (fun _ => FetchOutcome.httpError 500)
        (fun _ => 0) { resiNumbers := "P1,P1", resiList := [], isTracking := false }))[1]?.map
      (fun l' => (l'.filter (fun a => a.loading)).length)) = some 2 := by decide

/-- C6 (amended): payload and error are never both set at any written instant
(in the batch loop and in the single refresh, given they both start clear or
mutually exclusive); a lookup attempt clears the error message at its start
— but not the payload, which survives until the store — and the store
repopulates exactly one of the two. -/
theorem payload_error_mutually_exclusive (apiKey : Option String)
    (outF : Nat → FetchOutcome) (tf : Nat → Nat) (s : AppState)
    (h0 : ∀ a ∈ s.resiList, notBoth a) :
    (∀ l' ∈ listsOf (processResiTrace apiKey outF tf s), ∀ a ∈ l', notBoth a) ∧
    (∀ (o : FetchOutcome) (t : Nat) (r : String),
      ∀ l' ∈ listsOf (trackSingleTrace apiKey o t r s.resiList), ∀ a ∈ l', notBoth a) ∧
    (∀ r : String, ∀ a ∈ markLoading r s.resiList, a.resi = r → a.error = none) ∧
    (∀ (o : FetchOutcome) (t : Nat) (r : String),
      ∀ a ∈ processStep apiKey o t r s.resiList, a.resi = r → exactlyOne a) := by
  refine ⟨?_, ?_, ?_, ?_⟩
  · by_cases ht : jsTrim s.resiNumbers = ""
    · have hm : processResiTrace apiKey outF tf s = [Ev.alert "Silakan masukkan nomor resi"] := by
        simp [processResiTrace, ht]
      rw [hm]
      intro l' hl'
      simp at hl'
    cases hkp : keyPresent apiKey with
    | false =>
        obtain ⟨m, hm⟩ := processResiTrace_precond apiKey outF tf s (Or.inl hkp)
        rw [hm]
        intro l' hl'
        simp at hl'
    | true =>
        by_cases hts : parseResi s.resiNumbers = []
        · obtain ⟨m, hm⟩ := processResiTrace_precond apiKey outF tf s (Or.inr hts)
          rw [hm]
          intro l' hl'
          simp at hl'
        · rw [processResiTrace_success outF tf s apiKey hkp ht hts]
          intro l' hl'
          simp only [List.cons_append, listsOf_setList_cons, listsOf_setTracking_cons,
            listsOf_append, listsOf_nil, listsOf_batchTrace, List.append_nil] at hl'
          have hfresh : ∀ a ∈ (parseResi s.resiNumbers).map mkItem, notBoth a := by
            intro a ha
            obtain ⟨x, hx, rfl⟩ := List.mem_map.mp ha
            exact Or.inl rfl
          rcases List.mem_cons.mp hl' with rfl | hl2
          · exact hfresh
          · exact loopLists_pres apiKey outF tf (fun l => ∀ a ∈ l, notBoth a)
              (fun l => ∀ a ∈ l, notBoth a)
              (fun r l h => notBoth_markLoading h)
              (fun o t r l h => notBoth_processStep h)
              (fun o t r l h => notBoth_processStep h)
              (parseResi s.resiNumbers) 0 _ hfresh l' hl2
  · intro o t r l' hl'
    unfold trackSingleTrace at hl'
    by_cases hkp : keyPresent apiKey = false
    · rw [if_pos hkp] at hl'
      simp at hl'
    · rw [if_neg hkp] at hl'
      simp only [listsOf_setList_cons, listsOf_remoteCall_cons, listsOf_nil] at hl'
      rcases List.mem_cons.mp hl' with rfl | hl2
      · exact notBoth_markLoading h0
      · rcases List.mem_cons.mp hl2 with rfl | hl3
        · exact notBoth_processStep h0
        · simp at hl3
  · intro r a ha har
    obtain ⟨b, hb, rfl⟩ := List.mem_map.mp ha
    by_cases hbr : b.resi = r
    · rw [markItem_of_eq hbr]
    · rw [markItem_of_ne hbr] at har
      exact absurd har hbr
  · intro o t r a ha har
    rw [processStep_eq_map] at ha
    obtain ⟨b, hb, rfl⟩ := List.mem_map.mp ha
    have hbr : b.resi = r := by rw [← stepItem_resi apiKey o t r b]; exact har
    exact stepItem_exactlyOne hbr

/-- C6 witness: along the batch over "P1" the marked record (in progress,
error cleared) still satisfies the never-both invariant. -/
theorem payload_error_mutually_exclusive_witness :
    notBoth { resi := "P1", data := none, loading := true, error := none,
              lastUpdated := none } := by
  have h := payload_error_mutually_exclusive (some "k") (fun _ => FetchOutcome.httpError 500)
    (fun _ => 0) { resiNumbers := "P1", resiList := [], isTracking := false }
    (by intro a ha; simp at ha)
  exact h.1 (markLoading "P1" [mkItem "P1"]) (by decide) _ (by decide)

/-- C6 counterexample: a lookup attempt does NOT clear the result payload at
its start: marking a record that holds a payload leaves the payload in place
(only the error is cleared), refuting "clears both ... at its start". -/
theorem attempt_start_keeps_stale_payload_cex :
    (markLoading "P1" [sampleOkItem]).map ResiItem.data = [some sampleData200] ∧
    some sampleData200 ≠ (none : Option TrackingData) := by
  refine ⟨by decide, by simp⟩

/-- C7: the batch-in-progress flag is set to true right after the batch is
created (second event, before any call) and set to false as the very last
event of the trace, after the last record resolved; these are the only two
flag writes, and the single refresh never writes the flag. -/
theorem tracking_flag_spans_batch (k : String) (outF : Nat → FetchOutcome)
    (tf : Nat → Nat) (s : AppState) (hk : k ≠ "") (ht : jsTrim s.resiNumbers ≠ "")
    (hts : parseResi s.resiNumbers ≠ []) :
    tracksOf (processResiTrace (some k) outF tf s) = [true, false] ∧
    (processResiTrace (some k) outF tf s).getLast? = some (Ev.setTracking false) ∧
    (processResiTrace (some k) outF tf s).take 2 =
      [Ev.setList ((parseResi s.resiNumbers).map mkItem), Ev.setTracking true] ∧
    ∀ (apiKey : Option String) (o : FetchOutcome) (t2 : Nat) (r : String)
      (l : List ResiItem), tracksOf (trackSingleTrace apiKey o t2 r l) = [] := by
  rw [processResiTrace_success outF tf s (some k) (keyPresent_some hk) ht hts]
  refine ⟨?_, ?_, ?_, ?_⟩
  · simp [tracksOf_batchTrace]
  · exact List.getLast?_concat _
  · rfl
  · intro apiKey o t2 r l
    unfold trackSingleTrace
    by_cases hkp : keyPresent apiKey = false
    · rw [if_pos hkp]
      rfl
    · rw [if_neg hkp]
      rfl

/-- C7 witness: on a one-record batch the flag writes are exactly true then
false. -/
theorem tracking_flag_spans_batch_witness :
    tracksOf (processResiTrace (some "k") (fun _ => FetchOutcome.httpError 500) (fun _ => 0)
      { resiNumbers := "P1", resiList := [], isTracking := false }) = [true, false] :=
  (tracking_flag_spans_batch "k" (fun _ => FetchOutcome.httpError 500) (fun _ => 0)
    { resiNumbers := "P1", resiList := [], isTracking := false }
    (by decide) (by decide) (by decide)).1

/-- C8 (amended): both exports produce exactly one row per record, in batch
order, and zero rows for an empty batch; the page variant's rows carry the
eight claimed cells (identifier, status-or-ERROR, service, date, shipper,
receiver, latest history description, error message, with the stored error
or the default not-found text in the error cell); the component variant's
rows carry only identifier, receiver, latest history description and error
message. -/
theorem export_one_row_per_record (l : List ResiItem) (i : Nat) :
    (Page.exportToExcel l).length = l.length ∧
    (Components.exportToExcel l).length = l.length ∧
    Page.exportToExcel [] = [] ∧
    Components.exportToExcel [] = [] ∧
    (Page.exportToExcel l)[i]? = (l[i]?).map Page.exportRow ∧
    (Components.exportToExcel l)[i]? = (l[i]?).map Components.exportRow ∧
    (∀ (item : ResiItem) (d : TrackingData), item.data = some d → d.status = 200 →
      Page.exportRow item =
        [("No Resi", item.resi), ("Status", d.data.summary.status),
         ("Layanan", d.data.summary.service), ("Tanggal", d.data.summary.date),
         ("Pengirim", d.data.detail.shipper), ("Penerima", d.data.detail.receiver),
         ("Status Terakhir", latestDesc d), ("Pesan Error", "")]) ∧
    (∀ item : ResiItem, (item.data = none ∨ ∃ d, item.data = some d ∧ d.status ≠ 200) →
      Page.exportRow item =
        [("No Resi", item.resi), ("Status", "ERROR"), ("Layanan", "-"),
         ("Tanggal", "-"), ("Pengirim", "-"), ("Penerima", "-"),
         ("Status Terakhir", "-"),
         ("Pesan Error", jsOr item.error "Data tidak ditemukan")]) ∧
    (∀ item : ResiItem, (Components.exportRow item).map Prod.fst =
      ["No Resi", "Penerima", "Status Terakhir", "Pesan Error"]) := by
  refine ⟨by simp [Page.exportToExcel], by simp [Components.exportToExcel], rfl, rfl,
    by simp [Page.exportToExcel, List.getElem?_map],
    by simp [Components.exportToExcel, List.getElem?_map], ?_, ?_, ?_⟩
  · intro item d hd h200
    unfold Page.exportRow
    rw [hd]
    simp [h200]
  · intro item hcase
    unfold Page.exportRow
    rcases hcase with hnone | ⟨d, hd, hne⟩
    · rw [hnone]
      rfl
    · rw [hd]
      simp [hne, Page.errorRow]
  · intro item
    unfold Components.exportRow
    cases hd : item.data with
    | none => rfl
    | some d =>
        by_cases h200 : d.status = 200
        · simp [h200]
        · simp [h200, Components.errorRow]

/-- C8 witness: a one-record batch exports exactly one row. -/
theorem export_one_row_per_record_witness :
    (Page.exportToExcel [sampleOkItem]).length = [sampleOkItem].length :=
  (export_one_row_per_record [sampleOkItem] 0).1

/-- C8 counterexample: in src/components/PosTrackingSystem.tsx the export row
of a successful record carries only four cells (identifier, receiver, latest
history description, error message) — it has no status, service, date or
shipper cell (no "Layanan" service column in particular), refuting the
eight-cell row shape for that export. -/
theorem export_component_missing_columns_cex :
    (Components.exportToExcel [sampleOkItem]).map (fun row => row.map Prod.fst) =
      [["No Resi", "Penerima", "Status Terakhir", "Pesan Error"]] ∧
    "Layanan" ∉ (Components.exportRow sampleOkItem).map Prod.fst := by
  refine ⟨by decide, by decide⟩

/-- C9: trackResi accepts embedded status 201 as success and the store keeps
the payload with no error, but the success counter, the failure counter, the
success/not-found panels and both export classifications treat only status
200 as success, so a 201 record is a stored lookup success counted and
exported as a failure (with the default not-found text, its error being
null). -/
theorem status_201_success_counted_failed (k : String) (d : TrackingData) (r : String)
    (t : Nat) (l : List ResiItem) (hk : k ≠ "") (h201 : d.status = 201) :
    trackResi (some k) (FetchOutcome.ok d) = Except.ok d ∧
    (∀ a ∈ processStep (some k) (FetchOutcome.ok d) t r l, a.resi = r →
      a.data = some d ∧ a.error = none) ∧
    successfulTrackings [mkStored r d t] = 0 ∧
    failedTrackings [mkStored r d t] = 1 ∧
    showsSuccess (mkStored r d t) = false ∧
    showsNotFound (mkStored r d t) = true ∧
    Components.exportRow (mkStored r d t) = Components.errorRow (mkStored r d t) ∧
    Page.exportRow (mkStored r d t) = Page.errorRow (mkStored r d t) ∧
    jsOr (none : Option String) "Data tidak ditemukan" = "Data tidak ditemukan" := by
  have hok : trackResi (some k) (FetchOutcome.ok d) = Except.ok d := by
    unfold trackResi
    rw [keyPresent_some hk]
    simp [h201]
  refine ⟨hok, ?_, ?_, ?_, ?_, ?_, ?_, ?_, rfl⟩
  · intro a ha har
    rw [processStep_eq_map] at ha
    obtain ⟨b, hb, rfl⟩ := List.mem_map.mp ha
    have hbr : b.resi = r := by rw [← stepItem_resi (some k) (FetchOutcome.ok d) t r b]; exact har
    rw [stepItem_of_eq_ok hbr hok]
    exact ⟨rfl, rfl⟩
  · simp [successfulTrackings, mkStored, h201]
  · simp [failedTrackings, mkStored, h201]
  · simp [showsSuccess, mkStored, h201]
  · simp [showsNotFound, mkStored, h201]
  · unfold Components.exportRow
    simp [mkStored, h201]
  · unfold Page.exportRow
    simp [mkStored, h201]

/-- C9 witness: a concrete payload with status 201 is returned as a success
by trackResi yet counted failed by both counters. -/
theorem status_201_success_counted_failed_witness :
    trackResi (some "k") (FetchOutcome.ok sampleData201) = Except.ok sampleData201 ∧
    successfulTrackings [mkStored "P1" sampleData201 0] = 0 ∧
    failedTrackings [mkStored "P1" sampleData201 0] = 1 := by
  have h := status_201_success_counted_failed "k" sampleData201 "P1" 0 []
    (by decide) (by decide)
  exact ⟨h.1, h.2.2.1, h.2.2.2.1⟩

/-- C10: refreshing an identifier that matches no record in the collection
still performs exactly one remote call for it, but every collection state it
writes equals the old collection, and the final collection is unchanged. -/
theorem refresh_unmatched_is_pure_frame (apiKey : Option String) (o : FetchOutcome)
    (t : Nat) (r : String) (l : List ResiItem) (hk : keyPresent apiKey = true)
    (hm : ∀ a ∈ l, a.resi ≠ r) :
    callsOf (trackSingleTrace apiKey o t r l) = [r] ∧
    (∀ l' ∈ listsOf (trackSingleTrace apiKey o t r l), l' = l) ∧
    trackSingleResi apiKey o t r l = l := by
  have hkf : ¬keyPresent apiKey = false := by rw [hk]; simp
  refine ⟨?_, ?_, ?_⟩
  · unfold trackSingleTrace
    rw [if_neg hkf]
    rfl
  · unfold trackSingleTrace
    rw [if_neg hkf]
    intro l' hl'
    simp only [listsOf_setList_cons, listsOf_remoteCall_cons, listsOf_nil] at hl'
    rcases List.mem_cons.mp hl' with rfl | hl2
    · exact markLoading_of_no_match hm
    · rcases List.mem_cons.mp hl2 with rfl | hl3
      · exact processStep_of_no_match hm
      · simp at hl3
  · unfold trackSingleResi
    rw [if_neg hkf]
    exact processStep_of_no_match hm

/-- C10 witness: refreshing "P9" against a batch holding only "P1" leaves the
batch unchanged. -/
theorem refresh_unmatched_is_pure_frame_witness :
    trackSingleResi (some "k") (FetchOutcome.httpError 500) 0 "P9" [mkItem "P1"] =
      [mkItem "P1"] :=
  (refresh_unmatched_is_pure_frame (some "k") (FetchOutcome.httpError 500) 0 "P9"
    [mkItem "P1"] (by decide) (by decide)).2.2
